import Mathlib

/-!
Verification of the WebexTools core (resilient HTTP session, SCIM directory
client, directory records) against its natural-language specification.
The Python source in `webextools/` is embedded shallowly: JSON payloads are an
inductive type, the stateful generator loops become fuel-indexed interpreters
returning the full trace (yielded responses, issued requests, sleeps) together
with a terminal outcome, and Python exceptions become an error type threaded
through `Except`.
-/

set_option linter.unusedVariables false

namespace WebexTools

/-- JSON values, the payload type of the Webex SCIM API bodies.  Objects are
association lists with the first binding of a key the visible one (Python
dicts have unique keys, so this agrees with dict semantics on the values the
embedding constructs). -/
inductive Json where
  | null
  | bool (b : Bool)
  | int (n : Int)
  | str (s : String)
  | arr (elems : List Json)
  | obj (fields : List (String × Json))

/-- First binding of `key` in an association list (Python dict lookup). -/
def dictGet (kvs : List (String × Json)) (key : String) : Option Json :=
  (kvs.find? (fun kv => kv.1 == key)).map (fun kv => kv.2)

/-- Python `d.get(key, default)` on a dict. -/
def dictGetD (kvs : List (String × Json)) (key : String) (default : Json) : Json :=
  (dictGet kvs key).getD default

/-- Python `key in d` on a dict. -/
def dictHas (kvs : List (String × Json)) (key : String) : Bool :=
  (dictGet kvs key).isSome

/-- Python truthiness of a JSON value (`None`, `False`, `0`, `""`, `[]`, and
the empty mapping are falsy). -/
def Json.truthy : Json → Bool
  | .null => false
  | .bool b => b
  | .int n => n != 0
  | .str s => s != ""
  | .arr xs => !xs.isEmpty
  | .obj kvs => !kvs.isEmpty

/-- Whether a JSON value is a mapping (`isinstance(data, dict)`). -/
def Json.isObj : Json → Bool
  | .obj _ => true
  | _ => false

/-- Python exceptions that the embedded code can raise, plus the distinguished
`SystemExit` produced by `sys.exit`. -/
inductive PyError where
  | valueError
  | typeError
  | attributeError
  | keyError
  | jsonDecodeError
  | requestError
  | httpStatusError (status : Nat)
  | sysExit (code : Nat)
deriving DecidableEq, Repr

/-- The `User` dataclass of `webextools/users.py`.  Field values are the raw
payload values returned by `dict.get`, and the field defaults are the
dataclass defaults (`""`, `[]`, `False`). -/
structure User where
  id : Json := .str ""
  user_name : Json := .str ""
  emails : Json := .arr []
  display_name : Json := .str ""
  nick_name : Json := .str ""
  first_name : Json := .str ""
  last_name : Json := .str ""
  roles : Json := .arr []
  timezone : Json := .str ""
  active : Json := .bool false
  type : Json := .str ""

/-- `User.__post_init__`: when the payload is a mapping, populate each field
from it; otherwise return early, leaving every dataclass default.
`data.get("name", {})` is immediately asked for `.get("givenName", "")`, so a
`name` member that is present but not a mapping raises `AttributeError`. -/
def User.ofData (data : Json) : Except PyError User :=
  match data with
  | .obj kvs =>
    match dictGetD kvs "name" (.obj []) with
    | .obj nameKvs =>
      .ok { id := dictGetD kvs "id" (.str "")
            user_name := dictGetD kvs "userName" (.str "")
            emails := dictGetD kvs "emails" (.arr [])
            display_name := dictGetD kvs "displayName" (.str "")
            nick_name := dictGetD kvs "nickName" (.str "")
            first_name := dictGetD nameKvs "givenName" (.str "")
            last_name := dictGetD nameKvs "familyName" (.str "")
            roles := dictGetD kvs "roles" (.arr [])
            timezone := dictGetD kvs "timezone" (.str "")
            active := dictGetD kvs "active" (.bool false)
            type := dictGetD kvs "userType" (.str "") }
    | _ => .error .attributeError
  | _ => .ok {}

/-! ### Python string helpers used by the HTTP layer -/

/-- Python `str.strip(chars)` on a character list: drop members of `chars`
from both ends. -/
def pyStrip (chars : List Char) (s : List Char) : List Char :=
  ((s.dropWhile (fun c => chars.contains c)).reverse.dropWhile
    (fun c => chars.contains c)).reverse

/-- The whitespace characters `int(...)` strips from both ends of its
argument. -/
def pySpace : List Char :=
  [' ', '\t', '\n', '\r', Char.ofNat 11, Char.ofNat 12]

/-- Digit run accepted by Python integer parsing: digits of the base with
single underscores allowed between digits.  `prevDigit` records whether the
previous character was a digit. -/
def pyDigitsGo (isDig : Char → Bool) (toVal : Char → Nat) (base : Nat) :
    List Char → Nat → Bool → Option Nat
  | [], acc, prevDigit => if prevDigit then some acc else none
  | c :: rest, acc, prevDigit =>
    if isDig c then pyDigitsGo isDig toVal base rest (base * acc + toVal c) true
    else if c == Char.ofNat 95 && prevDigit then
      pyDigitsGo isDig toVal base rest acc false
    else none

/-- Python `str.split(sep)` for a one-character separator, on character
lists: no collapsing of empty parts. -/
def pySplitCharGo (sep : Char) : List Char → List Char → List (List Char)
  | [], acc => [acc.reverse]
  | c :: rest, acc =>
    if c == sep then acc.reverse :: pySplitCharGo sep rest []
    else pySplitCharGo sep rest (c :: acc)

/-- Python `s.split(sep)` for a one-character separator. -/
def pySplitChar (sep : Char) (s : List Char) : List (List Char) :=
  pySplitCharGo sep s []

/-- Python `s.replace(pat, "")`: remove non-overlapping occurrences of `pat`
scanning left to right.  Fuelled; `s.length` suffices since every step
consumes at least one character. -/
def pyRemoveGo (pat : List Char) : Nat → List Char → List Char
  | 0, s => s
  | fuel + 1, s =>
    match s with
    | [] => []
    | c :: rest =>
      if pat.isPrefixOf s then pyRemoveGo pat fuel (s.drop pat.length)
      else c :: pyRemoveGo pat fuel rest

/-- Python `s.replace(pat, "")`. -/
def pyRemoveAll (pat s : List Char) : List Char :=
  pyRemoveGo pat s.length s

/-- `str.lower()` for the ASCII strings the code lowercases. -/
def strLower (s : String) : String :=
  String.mk (s.data.map Char.toLower)

/-- Python `url.startswith(pre)`. -/
def pyStartsWith (s pre : String) : Bool :=
  pre.data.isPrefixOf s.data

/-- Python `int(s)` (base 10): surrounding whitespace, an optional sign, then
digits with optional single underscores between them. -/
def pyInt (s : String) : Option Int :=
  match pyStrip pySpace s.toList with
  | '+' :: rest => (pyDigitsGo Char.isDigit (fun c => c.toNat - 48) 10 rest 0 false).map Int.ofNat
  | '-' :: rest => (pyDigitsGo Char.isDigit (fun c => c.toNat - 48) 10 rest 0 false).map
      (fun n => -(Int.ofNat n))
  | rest => (pyDigitsGo Char.isDigit (fun c => c.toNat - 48) 10 rest 0 false).map Int.ofNat

/-! ### HTTP model

The transport (`httpx`) is abstracted by an oracle: a function from the index
of the HTTP call and the request actually issued to the answer of the remote
side.  A `transportError` answer models `httpx.RequestError` raised by the
client; a response carries the pieces of `httpx.Response` the code reads. -/

/-- The keyword arguments the repository ever passes to
`Session.request`: query parameters and a JSON body. -/
structure RequestKwargs where
  params : Option (List (String × Int)) := none
  json : Option Json := none

/-- One HTTP request as issued by `client.request(method, url, **params)`. -/
structure HttpRequest where
  method : String
  url : String
  kwargs : RequestKwargs := {}

/-- The pieces of an `httpx.Response` the embedded code reads.  `body = none`
models a body on which `.json()` raises (for example an empty body). -/
structure HttpResponse where
  status_code : Nat
  headers : List (String × String) := []
  body : Option Json := none
  cookies : List (String × String) := []

/-- `response.headers.get(key)`: httpx header lookup is case-insensitive. -/
def headerGet (hs : List (String × String)) (key : String) : Option String :=
  (hs.find? (fun kv => strLower kv.1 == strLower key)).map (fun kv => kv.2)

/-- What the remote side does with one HTTP call. -/
inductive ServerAnswer where
  | response (r : HttpResponse)
  | transportError

/-- The remote side: answers are a function of the call index and the request
issued. -/
def Server : Type := Nat → HttpRequest → ServerAnswer

/-- Session configuration: `base_url` and `max_retries` of
`Session.__init__` (default 6). -/
structure SessionCfg where
  base_url : String
  max_retries : Nat := 6

/-- The mutable parts of `self.params` the request loop touches: the header
dict (present iff an authorization was given) and the cookie dict. -/
structure SessionParams where
  headers : Option (List (String × String)) := none
  cookies : Option (List (String × String)) := none

/-- Python dict update-or-insert for string dicts. -/
def strDictSet (kvs : List (String × String)) (key v : String) :
    List (String × String) :=
  match kvs with
  | [] => [(key, v)]
  | (k, w) :: rest =>
    if k == key then (k, v) :: rest else (k, w) :: strDictSet rest key v

/-- Python `dict.update`: apply every binding of `new` over `old`. -/
def strDictUpdate (old new : List (String × String)) : List (String × String) :=
  new.foldl (fun acc kv => strDictSet acc kv.1 kv.2) old

/-- Lookup in a string dict. -/
def strDictGet (kvs : List (String × String)) (key : String) : Option String :=
  (kvs.find? (fun kv => kv.1 == key)).map (fun kv => kv.2)

/-! `httpx._utils.parse_header_links`, used on the `Link` response header. -/

/-- `re.split(", *<", value)`: split at each comma followed by any number of
spaces and a `<`, the separator (including the `<`) removed.  Structured on
fuel; `value.length + 1` always suffices since every step consumes a
character. -/
def reSplitCommaLt : Nat → List Char → List Char → List (List Char)
  | 0, s, acc => [acc.reverse ++ s]
  | _ + 1, [], acc => [acc.reverse]
  | fuel + 1, ',' :: rest, acc =>
    match rest.dropWhile (fun c => c == ' ') with
    | '<' :: r => acc.reverse :: reSplitCommaLt fuel r []
    | _ => reSplitCommaLt fuel rest (',' :: acc)
  | fuel + 1, c :: rest, acc => reSplitCommaLt fuel rest (c :: acc)

/-- `val.split(";", 1)` unpacked into two names: `none` models the
`ValueError` of unpacking a one-element list (no `;` present). -/
def splitOnceSemi (val : List Char) : Option (List Char × List Char) :=
  match val.findIdx? (fun c => c == ';') with
  | none => none
  | some i => some (val.take i, val.drop (i + 1))

/-- `param.split("=")` when it yields exactly two parts; otherwise `none`
(the `ValueError` that breaks the parameter loop). -/
def splitEqOnce (param : List Char) : Option (List Char × List Char) :=
  match param.findIdx? (fun c => c == '=') with
  | none => none
  | some i =>
    let rest := param.drop (i + 1)
    if rest.contains '=' then none else some (param.take i, rest)

/-- The characters `parse_header_links` strips from values. -/
def replaceChars : List Char := [' ', Char.ofNat 39, '"']

/-- The parameter loop of `parse_header_links`: each `key=value` parameter is
stripped and set on the link dict; a parameter that does not split into
exactly two parts ends the loop. -/
def linkParamsGo (link : List (String × String)) :
    List (List Char) → List (String × String)
  | [] => link
  | p :: rest =>
    match splitEqOnce p with
    | none => link
    | some (k, v) =>
      linkParamsGo
        (strDictSet link (String.mk (pyStrip replaceChars k))
          (String.mk (pyStrip replaceChars v))) rest

/-- One `<url>; key=value; ...` entry of a `Link` header value. -/
def parseOneLink (val : List Char) : List (String × String) :=
  let (url, params) :=
    match splitOnceSemi val with
    | some (u, p) => (u, p)
    | none => (val, [])
  let link := [("url", String.mk (pyStrip ('<' :: '>' :: replaceChars) url))]
  linkParamsGo link (pySplitChar ';' params)

/-- `httpx._utils.parse_header_links`. -/
def parse_header_links (value : String) : List (List (String × String)) :=
  let v := pyStrip replaceChars value.toList
  if v.isEmpty then []
  else (reSplitCommaLt (v.length + 1) v []).map parseOneLink

/-- The loop over the parsed links in `Session.request`:
`for link in links: if link["rel"] == "next": url = link["url"]; continue`.
`link["rel"]` on a link without a `rel` parameter raises `KeyError`. -/
def linkScan : List (List (String × String)) → Option String →
    Except PyError (Option String)
  | [], url => .ok url
  | link :: rest, url =>
    match strDictGet link "rel" with
    | none => .error .keyError
    | some rel =>
      if rel == "next" then
        match strDictGet link "url" with
        | none => .error .keyError
        | some u => linkScan rest (some u)
      else linkScan rest url

/-! ### `Session.normalize_url` and `urllib.parse.urlparse` scheme
extraction -/

/-- The characters `urllib.parse` accepts inside a scheme. -/
def schemeChars : List Char :=
  "abcdefghijklmnopqrstuvwxyzABCDEFGHIJKLMNOPQRSTUVWXYZ0123456789+-.".toList

/-- The (lowercased) scheme `urllib.parse.urlparse(url).scheme`: the text
before the first `:` when that position is positive, the first character is
an ASCII letter and every character is a scheme character; empty
otherwise. -/
def urlparseScheme (url : String) : String :=
  let cs := url.toList
  match cs.findIdx? (fun c => c == ':') with
  | none => ""
  | some i =>
    if 0 < i && (cs.take 1).all Char.isAlpha
        && (cs.take i).all (fun c => schemeChars.contains c) then
      String.mk ((cs.take i).map Char.toLower)
    else ""

/-- `Session.normalize_url`: prefix `base_url + "/"` unless the URL starts
with its own (lowercased) parsed scheme. -/
def normalize_url (cfg : SessionCfg) (url : String) : String :=
  if urlparseScheme url == "" || !(pyStartsWith url (urlparseScheme url)) then
    cfg.base_url ++ "/" ++ url
  else url

/-! ### `Session.process_response` -/

/-- What `Session.process_response` does with a response: return normally,
raise the `RateLimit` or `ProxyAuthenticationRequired` control exceptions, or
raise an ordinary error. -/
inductive ProcessOutcome where
  | success
  | rateLimit (retry_after : Int)
  | proxyAuthRequired
  | error (e : PyError)

/-- `Session.process_response`: merge received cookies into `self.params`,
accept 200/201/202/204 (and, through `raise_for_status`, any other 2xx),
raise `RateLimit` on 429 with `int(headers.get("Retry-After", 15))`, raise
`ProxyAuthenticationRequired` on 407, and raise `HTTPStatusError` on every
other status. -/
def process_response (p : SessionParams) (r : HttpResponse) :
    SessionParams × ProcessOutcome :=
  let p :=
    if !r.cookies.isEmpty then
      { p with cookies := some (match p.cookies with
          | some cs => strDictUpdate cs r.cookies
          | none => r.cookies) }
    else p
  if r.status_code == 200 || r.status_code == 201 || r.status_code == 202
      || r.status_code == 204 then
    (p, .success)
  else if r.status_code == 429 then
    match headerGet r.headers "Retry-After" with
    | none => (p, .rateLimit 15)
    | some s =>
      match pyInt s with
      | some n => (p, .rateLimit n)
      | none => (p, .error .valueError)
  else if r.status_code == 407 then (p, .proxyAuthRequired)
  else if 200 ≤ r.status_code && r.status_code < 300 then (p, .success)
  else (p, .error (.httpStatusError r.status_code))

/-! ### The `Session.request` generator -/

/-- How one run of the `Session.request` generator ends: the `while` loop
finishing normally, an exception propagating to the consumer, or the
interpreter running out of fuel (`max_retries + 2` always suffices, since
every loop iteration either ends the run or increments `retries`). -/
inductive ReqOutcome where
  | ended
  | raised (e : PyError)
  | fuelOut
deriving DecidableEq, Repr

/-- The observable trace of one `Session.request` run: responses yielded to
the consumer, HTTP requests issued, durations slept, the final outcome, and
the final `self.params` state. -/
structure ReqRun where
  yields : List HttpResponse := []
  requests : List HttpRequest := []
  sleeps : List Int := []
  outcome : ReqOutcome := .ended
  params : SessionParams := {}

/-- Truthiness of the `url` loop variable (`None` and `""` are falsy). -/
def urlTruthy : Option String → Bool
  | none => false
  | some s => s != ""

/-- The request one loop iteration issues:
`client.request(method, self.normalize_url(url), **params)`. -/
def mkReq (cfg : SessionCfg) (m u : String) (kw : RequestKwargs) : HttpRequest :=
  { method := m, url := normalize_url cfg u, kwargs := kw }

/-- The value of `url` after the walrus-guarded `Link`-header block of
`Session.request` (lines 128-134): when a non-empty `Link` header is
present, scan its parsed links for `rel="next"` entries (possibly raising
`KeyError`); otherwise keep `url` unchanged. -/
def nextAfterLink (headers : List (String × String)) (url : Option String) :
    Except PyError (Option String) :=
  match headerGet headers "Link" with
  | some lh =>
    if lh == "" then .ok url else linkScan (parse_header_links lh) url
  | none => .ok url

/-- The `while retries <= self.max_retries and url` loop of
`Session.request`.  On success the response is yielded, the `Link` header is
scanned for a `rel="next"` entry — and then line `url = None` executes
unconditionally (it sits after the `if` block, not inside it), discarding any
next-link the scan assigned.  On `RateLimit`, sleep `retry_after` seconds and
retry with `retries + 1`; on `ProxyAuthenticationRequired`, install
`Proxy-Authorization` into `self.params["headers"]` (raising `KeyError` when
the session has no header dict) and retry; transport and HTTP status errors
propagate.  The credential pair itself comes from
`prompt_proxy_credentials`. -/
def requestGo (cfg : SessionCfg) (serve : Server) (method : String)
    (kw : RequestKwargs) :
    Nat → Nat → Option String → Nat → SessionParams → ReqRun
  | 0, _, _, _, p => { outcome := .fuelOut, params := p }
  | fuel + 1, retries, url, callIdx, p =>
    if retries ≤ cfg.max_retries ∧ urlTruthy url then
      match url with
      | none => { outcome := .ended, params := p }
      | some u =>
        match serve callIdx (mkReq cfg method u kw) with
        | .transportError =>
          { requests := [mkReq cfg method u kw],
            outcome := .raised .requestError, params := p }
        | .response r =>
          match process_response p r with
          | (p1, .error e) =>
            { requests := [mkReq cfg method u kw],
              outcome := .raised e, params := p1 }
          | (p1, .rateLimit ra) =>
            let rest := requestGo cfg serve method kw fuel
              (retries + 1) url (callIdx + 1) p1
            { rest with requests := mkReq cfg method u kw :: rest.requests,
                        sleeps := ra :: rest.sleeps }
          | (p1, .proxyAuthRequired) =>
            match p1.headers with
            | none =>
              { requests := [mkReq cfg method u kw],
                outcome := .raised .keyError, params := p1 }
            | some hs =>
              let p2 := { p1 with
                headers := some (strDictSet hs "Proxy-Authorization" "BasicAuth") }
              let rest := requestGo cfg serve method kw fuel
                (retries + 1) url (callIdx + 1) p2
              { rest with requests := mkReq cfg method u kw :: rest.requests }
          | (p1, .success) =>
            match nextAfterLink r.headers url with
            | .error e =>
              { yields := [r], requests := [mkReq cfg method u kw],
                outcome := .raised e, params := p1 }
            | .ok _ =>
              let rest := requestGo cfg serve method kw fuel
                retries none (callIdx + 1) p1
              { rest with yields := r :: rest.yields,
                          requests := mkReq cfg method u kw :: rest.requests }
    else { outcome := .ended, params := p }

/-- `Session.request(method, url, **kwargs)` run to completion by its
consumer: the loop starts with `retries = 0` and the given URL, with fuel
`max_retries + 2` (sufficient: each iteration either ends the run or
increments `retries`, and the loop condition needs
`retries <= max_retries`). -/
def requestRun (cfg : SessionCfg) (serve : Server) (method : String)
    (kw : RequestKwargs) (url : String) (callIdx : Nat) (p : SessionParams) :
    ReqRun :=
  requestGo cfg serve method kw (cfg.max_retries + 2) 0 (some url) callIdx p

/-! ### The SCIM directory client (`webextools/scim.py`) -/

/-- `self.params` of the session a `SCIM` instance builds:
`Session(base_url=..., authorization=f"Bearer {token}")` installs an
`Authorization` header dict. -/
def scimParams (token : String) : SessionParams :=
  { headers := some [("Authorization", "Bearer " ++ token)] }

/-- The loop variables of `SCIM.get_users`. -/
structure GUState where
  total_results : Int
  next_index : Int
  items_per_page : Int

/-- An integer read out of a page body.  The counts feed Python `+` and `>=`
on integers, so a non-integer value would raise `TypeError` there; the
embedding raises it at extraction. -/
def expectInt : Json → Except PyError Int
  | .int n => .ok n
  | _ => .error .typeError

/-- Decode the entries of a `Resources` array in order
(`for resource in resources: yield User(resource)`). -/
def decodeResources (acc : List User) : List Json → Except PyError (List User)
  | [] => .ok acc
  | x :: rest =>
    match User.ofData x with
    | .error e => .error e
    | .ok u => decodeResources (acc ++ [u]) rest

/-- The body of `for item in response` in `SCIM.get_users`, for one yielded
response: `data = item.json()`; cache `totalResults` while the cached value
is falsy; read `itemsPerPage` and `startIndex`; advance
`next_index = startIndex + itemsPerPage`; decode and yield the entries of a
truthy `Resources` array (`data.get("Resources")` defaults to `None`, which
is falsy, as is an empty array). -/
def processPage (st : GUState) (acc : List User) (r : HttpResponse) :
    Except PyError (GUState × List User) := do
  match r.body with
  | none => .error .jsonDecodeError
  | some data =>
    match data with
    | .obj kvs =>
      let tr ←
        if st.total_results != 0 then pure st.total_results
        else expectInt (dictGetD kvs "totalResults" (.int 0))
      let ipp ← expectInt (dictGetD kvs "itemsPerPage" (.int 0))
      let si ← expectInt (dictGetD kvs "startIndex" (.int 1))
      let acc2 ←
        match dictGet kvs "Resources" with
        | none => pure acc
        | some v =>
          if v.truthy then
            match v with
            | .arr xs => decodeResources acc xs
            | _ => .error .typeError
          else pure acc
      .ok ({ total_results := tr, next_index := si + ipp,
             items_per_page := ipp }, acc2)
    | _ => .error .attributeError

/-- `for item in response` over every response one `session.get` run
yielded. -/
def processPages (st : GUState) (acc : List User) :
    List HttpResponse → Except PyError (GUState × List User)
  | [] => .ok (st, acc)
  | r :: rest =>
    match processPage st acc r with
    | .error e => .error e
    | .ok (st2, acc2) => processPages st2 acc2 rest

/-- The observable trace of a full consumption of the `SCIM.get_users`
generator: `result = none` means the loop had not finished within the given
fuel (so no termination was observed); otherwise the users yielded or the
exception raised.  `params_built` records the `params` dicts the loop
constructs — note `get_users` never passes them to `session.get`. -/
structure GURun where
  result : Option (Except PyError (List User)) := none
  requests : List HttpRequest := []
  sleeps : List Int := []
  params_built : List (List (String × Int)) := []

/-- The `while True` loop of `SCIM.get_users`.  Each iteration builds
`params = {"startIndex": next_index}` (plus `"count"` when `items_per_page`
is truthy) — and then calls `self.session.get(url)` without passing them —
iterates the yielded responses through `processPage`, and breaks once
`next_index - 1 >= total_results`. -/
def getUsersGo (cfg : SessionCfg) (serve : Server) (token org_id : String) :
    Nat → GUState → List User → Nat → SessionParams → GURun
  | 0, _, _, _, _ => { result := none }
  | fuel + 1, st, acc, callIdx, p =>
    let qp : List (String × Int) :=
      if st.items_per_page != 0 then
        [("startIndex", st.next_index), ("count", st.items_per_page)]
      else [("startIndex", st.next_index)]
    let url := "scim/" ++ org_id ++ "/v2/Users"
    let run := requestRun cfg serve "GET" {} url callIdx p
    let base : GURun :=
      { requests := run.requests, sleeps := run.sleeps, params_built := [qp] }
    match processPages st acc run.yields with
    | .error e => { base with result := some (.error e) }
    | .ok (st2, acc2) =>
      match run.outcome with
      | .raised e => { base with result := some (.error e) }
      | .fuelOut => base
      | .ended =>
        if st2.next_index - 1 ≥ st2.total_results then
          { base with result := some (.ok acc2) }
        else
          let rest := getUsersGo cfg serve token org_id fuel st2 acc2
            (callIdx + run.requests.length) run.params
          { result := rest.result,
            requests := base.requests ++ rest.requests,
            sleeps := base.sleeps ++ rest.sleeps,
            params_built := base.params_built ++ rest.params_built }

/-- `SCIM.get_users(org_id)` consumed to completion (up to `fuel` loop
iterations): requires an organization id, then runs the pagination loop from
`total_results = 0`, `next_index = 1`, `items_per_page = 0`. -/
def get_users (cfg : SessionCfg) (serve : Server) (token org_id : String)
    (fuel : Nat) : GURun :=
  if org_id == "" then { result := some (.error .valueError) }
  else getUsersGo cfg serve token org_id fuel
    { total_results := 0, next_index := 1, items_per_page := 0 } [] 0
    (scimParams token)

/-- The observable trace of `SCIM.get_user` / `SCIM.update_user_patch`:
the returned record (`some u`), the explicit not-found outcome (`none`), or
the exception raised; plus the requests issued. -/
structure SingleRun where
  result : Option (Except PyError (Option User)) := none
  requests : List HttpRequest := []
  sleeps : List Int := []

/-- The shared tail of `get_user` and `update_user_patch`:
`if not response: return None` never fires (a generator object is always
truthy); `response = list(response)` consumes the generator, surfacing any
exception it raises; an empty list returns `None`; otherwise
`User(response[0].json())`. -/
def singleResult (run : ReqRun) : SingleRun :=
  match run.outcome with
  | .raised e =>
    { result := some (.error e), requests := run.requests, sleeps := run.sleeps }
  | .fuelOut => { requests := run.requests, sleeps := run.sleeps }
  | .ended =>
    match run.yields with
    | [] =>
      { result := some (.ok none), requests := run.requests,
        sleeps := run.sleeps }
    | r :: _ =>
      match r.body with
      | none =>
        { result := some (.error .jsonDecodeError), requests := run.requests,
          sleeps := run.sleeps }
      | some j =>
        match User.ofData j with
        | .error e =>
          { result := some (.error e), requests := run.requests,
            sleeps := run.sleeps }
        | .ok u =>
          { result := some (.ok (some u)), requests := run.requests,
            sleeps := run.sleeps }

/-- `SCIM.get_user(user_id, org_id)`. -/
def get_user (cfg : SessionCfg) (serve : Server) (token user_id org_id : String) :
    SingleRun :=
  if org_id == "" then { result := some (.error .valueError) }
  else
    let url := "scim/" ++ org_id ++ "/v2/Users/" ++ user_id
    singleResult (requestRun cfg serve "GET" {} url 0 (scimParams token))

/-- The local validation of `SCIM.update_user_patch`:
`isinstance(data, dict) and "schemas" in data and "Operations" in data`. -/
def validPatchData : Json → Bool
  | .obj kvs => dictHas kvs "schemas" && dictHas kvs "Operations"
  | _ => false

/-- `SCIM.update_user_patch(user_id, data, org_id)`: organization check, then
the local patch-document validation (raising `ValueError` before any request
is issued), then `self.session.patch(url, json=data)`. -/
def update_user_patch (cfg : SessionCfg) (serve : Server)
    (token user_id : String) (data : Json) (org_id : String) : SingleRun :=
  if org_id == "" then { result := some (.error .valueError) }
  else if !validPatchData data then { result := some (.error .valueError) }
  else
    let url := "scim/" ++ org_id ++ "/v2/Users/" ++ user_id
    singleResult
      (requestRun cfg serve "PATCH" { json := some data } url 0
        (scimParams token))

/-! ### `get_org_id_from_token` (`webextools/helper.py`) and the
`uuid.UUID` constructor it calls -/

/-- Hex digit test of Python `int(s, 16)`. -/
def isHexDig (c : Char) : Bool :=
  c.isDigit || (97 ≤ c.toNat && c.toNat ≤ 102) || (65 ≤ c.toNat && c.toNat ≤ 70)

/-- Value of a hex digit. -/
def hexVal (c : Char) : Nat :=
  if c.isDigit then c.toNat - 48
  else if 97 ≤ c.toNat then c.toNat - 87
  else c.toNat - 55

/-- Python `int(s, 16)` digit part: an optional `0x`/`0X` prefix, then hex
digits with single underscores between them (one underscore may follow the
prefix). -/
def pyIntHexCore (cs : List Char) : Option Nat :=
  match cs with
  | '0' :: c :: rest =>
    if c == 'x' || c == 'X' then
      if rest.isEmpty then none
      else pyDigitsGo isHexDig hexVal 16 rest 0 true
    else pyDigitsGo isHexDig hexVal 16 cs 0 false
  | _ => pyDigitsGo isHexDig hexVal 16 cs 0 false

/-- Python `int(s, 16)`: surrounding whitespace, optional sign, optional
`0x` prefix, hex digits. -/
def pyIntHex (s : List Char) : Option Int :=
  match pyStrip pySpace s with
  | '+' :: rest => (pyIntHexCore rest).map Int.ofNat
  | '-' :: rest => (pyIntHexCore rest).map (fun n => -(Int.ofNat n))
  | rest => (pyIntHexCore rest).map Int.ofNat

/-- Whether `uuid.UUID(s)` succeeds: drop every occurrence of `urn:` and
`uuid:`, strip braces from the ends, drop hyphens, require exactly 32
characters parsed by `int(hex, 16)` to a non-negative value. -/
def pyUUIDValid (s : String) : Bool :=
  let h := pyRemoveAll "uuid:".toList (pyRemoveAll "urn:".toList s.toList)
  let h := pyStrip [Char.ofNat 123, Char.ofNat 125] h
  let h := h.filter (fun c => c != '-')
  h.length == 32 &&
    (match pyIntHex h with
     | some v => decide (0 ≤ v)
     | none => false)

/-- `token.split("_")[-1]`: the part after the last underscore. -/
def tokenLastPart (token : String) : String :=
  ((pySplitChar '_' token.data).map String.mk).getLastD ""

/-- `get_org_id_from_token`: `sys.exit(1)` when the token has no underscore;
otherwise take the part after the last underscore and validate it with
`uuid.UUID` (which raises `ValueError` when malformed; a constructed UUID
object is always truthy, so the `if not uuid.UUID(org_id)` branch never
fires). -/
def get_org_id_from_token (token : String) : Except PyError String :=
  if !(token.toList.contains '_') then .error (.sysExit 1)
  else
    let org_id := tokenLastPart token
    if !pyUUIDValid org_id then .error .valueError
    else .ok org_id

/-! ### Concrete scenarios the claims are settled on -/

/-- A session configuration with the default retry budget (6). -/
def cfgS : SessionCfg := { base_url := "https://identity.example.com" }

/-- First directory resource of the two-page listing. -/
def alice : Json := .obj [("id", .str "u1"), ("userName", .str "alice@x.com")]

/-- Second directory resource of the two-page listing. -/
def bob : Json := .obj [("id", .str "u2"), ("userName", .str "bob@x.com")]

/-- The record `User(alice)` decodes to. -/
def aliceUser : User := { id := .str "u1", user_name := .str "alice@x.com" }

/-- The page a startIndex-honouring server serves for a given
`startIndex`. -/
def pageBody (si : Int) : Json :=
  if si ≥ 2 then
    .obj [("totalResults", .int 2), ("itemsPerPage", .int 1),
          ("startIndex", .int 2), ("Resources", .arr [bob])]
  else
    .obj [("totalResults", .int 2), ("itemsPerPage", .int 1),
          ("startIndex", .int 1), ("Resources", .arr [alice])]

/-- A server holding 2 resources spread across 2 pages, keyed by the
`startIndex` query parameter of the request it receives (1 when the
parameter is absent, as for a request that carries no parameters). -/
def serveTwoPages : Server := fun _ req =>
  let si : Int :=
    match req.kwargs.params with
    | some ps =>
      match ps.find? (fun kv => kv.1 == "startIndex") with
      | some kv => kv.2
      | none => 1
    | none => 1
  .response { status_code := 200, body := some (pageBody si) }

/-- The request `get_users` issues against `cfgS` (no query parameters, no
body). -/
def reqUsers : HttpRequest :=
  { method := "GET", url := "https://identity.example.com/scim/org1/v2/Users" }

/-- A server that always answers with a page that has no items while
reporting `totalResults = 10` and a non-advancing cursor
(`startIndex = 1`, `itemsPerPage = 0`). -/
def serveEmptyPages : Server := fun _ _ =>
  .response { status_code := 200, body := some (.obj
    [("totalResults", .int 10), ("itemsPerPage", .int 0),
     ("startIndex", .int 1), ("Resources", .arr [])]) }

/-- A server holding a single one-page listing
(`totalResults = 1 = itemsPerPage`). -/
def serveOnePage : Server := fun _ _ =>
  .response { status_code := 200, body := some (.obj
    [("totalResults", .int 1), ("itemsPerPage", .int 1),
     ("startIndex", .int 1), ("Resources", .arr [alice])]) }

/-- A `Link` header advertising a next page (RFC 8288 style). -/
def linkHdr : String :=
  "<https://api.example.com/v2/Users?startIndex=2>; rel=\"next\""

/-- A successful response whose `Link` header advertises a next page. -/
def respWithLink : HttpResponse :=
  { status_code := 200, headers := [("Link", linkHdr)], body := some (.obj []) }

/-- A server that serves `respWithLink` and, if the advertised next-page URL
were ever requested, a second page. -/
def serveLinked : Server := fun _ req =>
  if req.url == "https://api.example.com/v2/Users?startIndex=2" then
    .response { status_code := 200, body := some (.obj [("page", .int 2)]) }
  else .response respWithLink

/-- A server that answers 429 with `Retry-After: 3` to every request. -/
def serve429 : Server := fun _ _ =>
  .response { status_code := 429, headers := [("Retry-After", "3")] }

/-- The 429 response of `serve429`. -/
def resp429 : HttpResponse :=
  { status_code := 429, headers := [("Retry-After", "3")] }

/-- A server that answers 429 with no `Retry-After` header to every
request. -/
def serve429bare : Server := fun _ _ => .response { status_code := 429 }

/-- The 429 response of `serve429bare`. -/
def resp429bare : HttpResponse := { status_code := 429 }

/-- A session configuration with `max_retries = 2`. -/
def cfg429 : SessionCfg := { base_url := "https://b", max_retries := 2 }

/-- A session configuration with an arbitrary retry budget. -/
def cfgB (mr : Nat) : SessionCfg := { base_url := "https://b", max_retries := mr }

/-- The request the rate-limited runs issue against a `base_url` of
`"https://b"`. -/
def reqX : HttpRequest := { method := "GET", url := "https://b/x" }

/-- A server whose responses are successful but carry an empty
(undecodable) body. -/
def serveEmptyBody : Server := fun _ _ => .response { status_code := 200 }

/-- A well-formed patch document (both required top-level fields
present). -/
def patchDoc : Json := .obj [("schemas", .arr []), ("Operations", .arr [])]

/-! ## Helper lemmas -/

/-- Every branch of `singleResult` reports the requests of the underlying
run unchanged. -/
theorem singleResult_requests (run : ReqRun) :
    (singleResult run).requests = run.requests := by
  unfold singleResult
  (repeat' split) <;> rfl

/-! ## The claims -/

/-- C10: constructing a `User` from a payload that is not a mapping does not
raise: every field keeps its dataclass default (`id` and the other string
fields empty, `emails` and `roles` empty lists, `active` false). -/
theorem claim_C10 (data : Json) (h : data.isObj = false) :
    User.ofData data = .ok
      { id := .str "", user_name := .str "", emails := .arr [],
        display_name := .str "", nick_name := .str "", first_name := .str "",
        last_name := .str "", roles := .arr [], timezone := .str "",
        active := .bool false, type := .str "" } := by
  cases data <;> first | rfl | simp [Json.isObj] at h

/-- Witness for C10 at the concrete non-mapping payload `None`. -/
theorem claim_C10_witness :
    User.ofData .null = .ok
      { id := .str "", user_name := .str "", emails := .arr [],
        display_name := .str "", nick_name := .str "", first_name := .str "",
        last_name := .str "", roles := .arr [], timezone := .str "",
        active := .bool false, type := .str "" } :=
  claim_C10 .null rfl

/-- C9 counterexample: a mapping payload whose `name` member is present but
not itself a mapping makes `User` construction raise `AttributeError`
(`data.get("name", {}).get(...)` on a non-dict), so construction does not
succeed for every well-formed mapping payload. -/
theorem claim_C9_cex :
    User.ofData (.obj [("name", .int 3)]) = .error .attributeError := rfl

/-- C9 (amended): for every mapping payload whose `name` member, when
present, is itself a mapping, `User` construction succeeds, and every field
absent from the payload takes its default (empty string, empty list, or
`active = False`). -/
theorem claim_C9 (kvs : List (String × Json))
    (h : ∀ v, dictGet kvs "name" = some v → v.isObj = true) :
    ∃ u, User.ofData (.obj kvs) = .ok u
      ∧ (dictGet kvs "id" = none → u.id = .str "")
      ∧ (dictGet kvs "userName" = none → u.user_name = .str "")
      ∧ (dictGet kvs "emails" = none → u.emails = .arr [])
      ∧ (dictGet kvs "displayName" = none → u.display_name = .str "")
      ∧ (dictGet kvs "nickName" = none → u.nick_name = .str "")
      ∧ (dictGet kvs "name" = none →
          u.first_name = .str "" ∧ u.last_name = .str "")
      ∧ (dictGet kvs "roles" = none → u.roles = .arr [])
      ∧ (dictGet kvs "timezone" = none → u.timezone = .str "")
      ∧ (dictGet kvs "active" = none → u.active = .bool false)
      ∧ (dictGet kvs "userType" = none → u.type = .str "") := by
  cases hn : dictGet kvs "name" with
  | none =>
    have hd : dictGetD kvs "name" (.obj []) = .obj [] := by
      simp [dictGetD, hn]
    refine ⟨{ id := dictGetD kvs "id" (.str ""),
              user_name := dictGetD kvs "userName" (.str ""),
              emails := dictGetD kvs "emails" (.arr []),
              display_name := dictGetD kvs "displayName" (.str ""),
              nick_name := dictGetD kvs "nickName" (.str ""),
              first_name := .str "", last_name := .str "",
              roles := dictGetD kvs "roles" (.arr []),
              timezone := dictGetD kvs "timezone" (.str ""),
              active := dictGetD kvs "active" (.bool false),
              type := dictGetD kvs "userType" (.str "") },
      by simp only [User.ofData, hd]; rfl, ?_, ?_, ?_, ?_, ?_, ?_,
      ?_, ?_, ?_, ?_⟩ <;> intro hf
    · simp [dictGetD, hf]
    · simp [dictGetD, hf]
    · simp [dictGetD, hf]
    · simp [dictGetD, hf]
    · simp [dictGetD, hf]
    · exact ⟨rfl, rfl⟩
    · simp [dictGetD, hf]
    · simp [dictGetD, hf]
    · simp [dictGetD, hf]
    · simp [dictGetD, hf]
  | some v =>
    have hv := h v hn
    cases v <;> simp [Json.isObj] at hv
    case obj nameKvs =>
    have hd : dictGetD kvs "name" (.obj []) = .obj nameKvs := by
      simp [dictGetD, hn]
    refine ⟨{ id := dictGetD kvs "id" (.str ""),
              user_name := dictGetD kvs "userName" (.str ""),
              emails := dictGetD kvs "emails" (.arr []),
              display_name := dictGetD kvs "displayName" (.str ""),
              nick_name := dictGetD kvs "nickName" (.str ""),
              first_name := dictGetD nameKvs "givenName" (.str ""),
              last_name := dictGetD nameKvs "familyName" (.str ""),
              roles := dictGetD kvs "roles" (.arr []),
              timezone := dictGetD kvs "timezone" (.str ""),
              active := dictGetD kvs "active" (.bool false),
              type := dictGetD kvs "userType" (.str "") },
      by simp only [User.ofData, hd], ?_, ?_, ?_, ?_, ?_, ?_,
      ?_, ?_, ?_, ?_⟩ <;> intro hf
    · simp [dictGetD, hf]
    · simp [dictGetD, hf]
    · simp [dictGetD, hf]
    · simp [dictGetD, hf]
    · simp [dictGetD, hf]
    · simp at hf
    · simp [dictGetD, hf]
    · simp [dictGetD, hf]
    · simp [dictGetD, hf]
    · simp [dictGetD, hf]

/-- Witness for C9 at the empty mapping: construction succeeds with every
field at its default. -/
theorem claim_C9_witness :
    ∃ u, User.ofData (.obj []) = .ok u
      ∧ (dictGet [] "id" = none → u.id = .str "")
      ∧ (dictGet [] "userName" = none → u.user_name = .str "")
      ∧ (dictGet [] "emails" = none → u.emails = .arr [])
      ∧ (dictGet [] "displayName" = none → u.display_name = .str "")
      ∧ (dictGet [] "nickName" = none → u.nick_name = .str "")
      ∧ (dictGet [] "name" = none →
          u.first_name = .str "" ∧ u.last_name = .str "")
      ∧ (dictGet [] "roles" = none → u.roles = .arr [])
      ∧ (dictGet [] "timezone" = none → u.timezone = .str "")
      ∧ (dictGet [] "active" = none → u.active = .bool false)
      ∧ (dictGet [] "userType" = none → u.type = .str "") :=
  claim_C9 [] (by intro v hv; simp [dictGet] at hv)

/-- C8: the organization-id derivation returns the trailing segment of an
underscore-delimited token when it is a valid UUID (the example token yields
its trailing UUID), exits on a token without an underscore, and raises
`ValueError` on a malformed trailing segment. -/
theorem claim_C8 :
    get_org_id_from_token "abc123_11111111-2222-3333-4444-555555555555"
      = .ok "11111111-2222-3333-4444-555555555555"
    ∧ (∀ token : String, token.toList.contains '_' = false →
        get_org_id_from_token token = .error (.sysExit 1))
    ∧ (∀ token : String, token.toList.contains '_' = true →
        pyUUIDValid (tokenLastPart token) = false →
        get_org_id_from_token token = .error .valueError) := by
  refine ⟨rfl, ?_, ?_⟩
  · intro t h
    simp only [get_org_id_from_token]
    rw [h]
    rfl
  · intro t h1 h2
    simp only [get_org_id_from_token]
    rw [h1, h2]
    rfl

/-- C7 counterexample: `"HTTP://api.example.com/x"` has a scheme per
`urlparse` (namely `"http"`, lowercased), yet `normalize_url` does not use
it verbatim — the second condition `not url.startswith(scheme)` fires and
prefixes `base_url`. -/
theorem claim_C7_cex :
    urlparseScheme "HTTP://api.example.com/x" = "http"
    ∧ normalize_url cfgS "HTTP://api.example.com/x"
        = "https://identity.example.com/HTTP://api.example.com/x"
    ∧ normalize_url cfgS "HTTP://api.example.com/x"
        ≠ "HTTP://api.example.com/x" := by
  refine ⟨rfl, rfl, ?_⟩
  decide

/-- C7 (amended): a URL with no `urlparse` scheme is resolved as
`base_url + "/" + url`; a URL that starts with its own (lowercased) parsed
scheme is used verbatim.  (URLs whose scheme letters are not all lowercase
have a scheme yet are also prefixed — see the counterexample.) -/
theorem claim_C7 (cfg : SessionCfg) (url : String) :
    (urlparseScheme url = "" →
      normalize_url cfg url = cfg.base_url ++ "/" ++ url)
    ∧ (urlparseScheme url ≠ "" →
        pyStartsWith url (urlparseScheme url) = true →
        normalize_url cfg url = url) := by
  constructor
  · intro h; simp [normalize_url, h]
  · intro h1 h2
    simp [normalize_url, h2, beq_eq_false_iff_ne, h1]

/-- Witness for C7: a relative URL is prefixed with the base URL; an
absolute lowercase-scheme URL is used verbatim. -/
theorem claim_C7_witness :
    normalize_url cfgS "scim/org1/v2/Users"
        = "https://identity.example.com/scim/org1/v2/Users"
    ∧ normalize_url cfgS "https://api.example.com/x"
        = "https://api.example.com/x" :=
  ⟨(claim_C7 cfgS "scim/org1/v2/Users").1 rfl,
   (claim_C7 cfgS "https://api.example.com/x").2 (by decide) rfl⟩

/-- C5: `get_user` against a server answering 200 with an empty body raises
`json.JSONDecodeError` from `response[0].json()` instead of returning the
explicit not-found outcome `None` — the `if not response` guard can never
fire on a generator object. -/
theorem claim_C5 :
    (get_user cfgS serveEmptyBody "tok" "U7" "org1").result
      = some (.error .jsonDecodeError) := rfl

/-- C2: after a successful response whose `Link` header does contain a
`rel="next"` entry (the last conjunct, through the parser of the code
itself), the run ends without issuing any further request: `url = None`
executes unconditionally after the link scan, so the next-page URL is never
fetched. -/
theorem claim_C2 :
    (requestRun cfgS serveLinked "GET" {} "scim/org1/v2/Users" 0 {}).yields
        = [respWithLink]
    ∧ (requestRun cfgS serveLinked "GET" {} "scim/org1/v2/Users" 0 {}).requests
        = [reqUsers]
    ∧ (requestRun cfgS serveLinked "GET" {} "scim/org1/v2/Users" 0 {}).outcome
        = .ended
    ∧ linkScan (parse_header_links linkHdr) (some "scim/org1/v2/Users")
        = .ok (some "https://api.example.com/v2/Users?startIndex=2") :=
  ⟨rfl, rfl, rfl, rfl⟩

/-- Against a server that rate-limits every attempt (every call answered by
`resp`, processed to `RateLimit ra`), the request loop makes
`max_retries + 1 - retries` further attempts, sleeping `ra` before each
increment, and then ends normally: no response is yielded and no error is
raised. -/
theorem requestGo_const_rateLimit (cfg : SessionCfg) (serve : Server)
    (m : String) (kw : RequestKwargs) (u : String) (resp : HttpResponse)
    (ra : Int) (hs : ∀ n r, serve n r = .response resp)
    (hp : ∀ q : SessionParams, process_response q resp = (q, .rateLimit ra))
    (hu : u ≠ "") :
    ∀ fuel retries ci p, cfg.max_retries + 2 ≤ fuel + retries →
      retries ≤ cfg.max_retries + 1 →
      requestGo cfg serve m kw fuel retries (some u) ci p
        = { yields := [],
            requests := List.replicate (cfg.max_retries + 1 - retries)
              { method := m, url := normalize_url cfg u, kwargs := kw },
            sleeps := List.replicate (cfg.max_retries + 1 - retries) ra,
            outcome := .ended, params := p } := by
  intro fuel
  induction fuel with
  | zero => intro retries ci p h1 h2; omega
  | succ fuel IH =>
    intro retries ci p h1 h2
    by_cases hr : retries ≤ cfg.max_retries
    · rw [requestGo, if_pos ⟨hr, by simp [urlTruthy, hu]⟩]
      simp only [hs, hp]
      rw [IH (retries + 1) (ci + 1) p (by omega) (by omega)]
      rw [show cfg.max_retries + 1 - retries
            = (cfg.max_retries + 1 - (retries + 1)) + 1 from by omega]
      rw [List.replicate_succ]
      rfl
    · rw [requestGo, if_neg (fun hc => hr hc.1)]
      rw [show cfg.max_retries + 1 - retries = 0 from by omega]
      rfl

/-- The first HTTP request a `requestRun` issues (for a non-empty URL) is
the normalized request itself, whatever the server answers. -/
theorem requestRun_first_request (cfg : SessionCfg) (serve : Server)
    (m : String) (kw : RequestKwargs) (u : String) (ci : Nat)
    (p : SessionParams) (hu : u ≠ "") :
    (requestRun cfg serve m kw u ci p).requests.head?
      = some { method := m, url := normalize_url cfg u, kwargs := kw } := by
  unfold requestRun
  show (requestGo cfg serve m kw (cfg.max_retries + 1 + 1) 0
      (some u) ci p).requests.head? = _
  rw [requestGo, if_pos ⟨Nat.zero_le _, by simp [urlTruthy, hu]⟩]
  (repeat' split) <;> rfl

/-- C4 counterexample: with `max_retries = 2` and a server that answers 429
with `Retry-After: 3` to every attempt, the run sleeps 3 seconds three
times and then the lazy sequence simply ends — the outcome is `ended`, not
an error: no retryable-exhausted error is propagated to the caller. -/
theorem claim_C4_cex :
    (requestRun cfg429 serve429 "GET" {} "x" 0 {}).outcome = .ended
    ∧ (requestRun cfg429 serve429 "GET" {} "x" 0 {}).yields = []
    ∧ (requestRun cfg429 serve429 "GET" {} "x" 0 {}).sleeps = [3, 3, 3] :=
  ⟨rfl, rfl, rfl⟩

/-- C4 (amended): when every attempt is rate-limited, `Session.request`
retries the same request at most `max_retries` times — `max_retries + 1`
identical attempts in all, sleeping `Retry-After` seconds (15 when the
header is absent) before each retry — and then stops: the lazy sequence
ends silently, yielding nothing and raising no error, rather than retrying
further or looping forever. -/
theorem claim_C4 (mr : Nat) :
    requestRun (cfgB mr) serve429 "GET" {} "x" 0 {}
      = { yields := [],
          requests := List.replicate (mr + 1) (mkReq (cfgB mr) "GET" "x" {}),
          sleeps := List.replicate (mr + 1) 3,
          outcome := .ended, params := {} }
    ∧ (requestRun (cfgB mr) serve429bare "GET" {} "x" 0 {}).sleeps
      = List.replicate (mr + 1) 15 := by
  constructor
  · have h := requestGo_const_rateLimit (cfgB mr) serve429 "GET" {} "x"
      resp429 3 (fun n r => rfl) (fun q => rfl) (by decide)
      (mr + 2) 0 0 {} (by simp [cfgB]) (by simp [cfgB])
    simpa [requestRun, cfgB, mkReq] using h
  · have h := requestGo_const_rateLimit (cfgB mr) serve429bare "GET" {} "x"
      resp429bare 15 (fun n r => rfl) (fun q => rfl) (by decide)
      (mr + 2) 0 0 {} (by simp [cfgB]) (by simp [cfgB])
    simp only [requestRun]
    rw [show (cfgB mr).max_retries + 2 = mr + 2 from rfl, h]
    simp [cfgB]

/-- C6: a patch document that is not a mapping or lacks `schemas` or
`Operations` makes `update_user_patch` raise `ValueError` with no HTTP
request issued; a document with both keys passes the local validation and
the PATCH request (with the document as JSON body) is the first request
sent. -/
theorem claim_C6 (serve : Server) (data : Json) :
    (validPatchData data = false →
      update_user_patch cfgS serve "tok" "U1" data "org1"
        = { result := some (.error .valueError) })
    ∧ (validPatchData data = true →
      (update_user_patch cfgS serve "tok" "U1" data "org1").requests.head?
        = some { method := "PATCH",
                 url := "https://identity.example.com/scim/org1/v2/Users/U1",
                 kwargs := { json := some data } }) := by
  constructor
  · intro hv
    unfold update_user_patch
    rw [hv]
    rfl
  · intro hv
    have h1 : update_user_patch cfgS serve "tok" "U1" data "org1"
        = singleResult (requestRun cfgS serve "PATCH" { json := some data }
            ("scim/" ++ "org1" ++ "/v2/Users/" ++ "U1") 0 (scimParams "tok")) := by
      unfold update_user_patch
      rw [hv]
      rfl
    rw [h1, singleResult_requests,
      requestRun_first_request cfgS serve "PATCH" { json := some data }
        ("scim/" ++ "org1" ++ "/v2/Users/" ++ "U1") 0 (scimParams "tok")
        (by decide)]
    rfl

/-- Witness for C6: a document missing `Operations` is rejected with no
request issued; the well-formed `patchDoc` is sent as a PATCH body. -/
theorem claim_C6_witness :
    update_user_patch cfgS serveEmptyBody "tok" "U1"
        (.obj [("schemas", .arr [])]) "org1"
      = { result := some (.error .valueError) }
    ∧ (update_user_patch cfgS serveEmptyBody "tok" "U1" patchDoc
        "org1").requests.head?
      = some { method := "PATCH",
               url := "https://identity.example.com/scim/org1/v2/Users/U1",
               kwargs := { json := some patchDoc } } :=
  ⟨(claim_C6 serveEmptyBody (.obj [("schemas", .arr [])])).1 rfl,
   (claim_C6 serveEmptyBody patchDoc).2 rfl⟩

/-- One `get_users` iteration against the two-page server from the repeating
state (`total_results = 2`, `next_index = 2`, `items_per_page = 1`): since
the request carries no `startIndex`, the server serves page 1 again, the
loop yields `alice` again and returns to the very same state. -/
theorem getUsersGo_twoPages_step (fuel : Nat) (acc : List User) (ci : Nat)
    (p : SessionParams) :
    getUsersGo cfgS serveTwoPages "tok" "org1" (fuel + 1)
        { total_results := 2, next_index := 2, items_per_page := 1 } acc ci p
      = { result := (getUsersGo cfgS serveTwoPages "tok" "org1" fuel
            { total_results := 2, next_index := 2, items_per_page := 1 }
            (acc ++ [aliceUser]) (ci + 1) p).result,
          requests := reqUsers :: (getUsersGo cfgS serveTwoPages "tok" "org1"
            fuel { total_results := 2, next_index := 2, items_per_page := 1 }
            (acc ++ [aliceUser]) (ci + 1) p).requests,
          sleeps := (getUsersGo cfgS serveTwoPages "tok" "org1" fuel
            { total_results := 2, next_index := 2, items_per_page := 1 }
            (acc ++ [aliceUser]) (ci + 1) p).sleeps,
          params_built := [("startIndex", 2), ("count", 1)]
            :: (getUsersGo cfgS serveTwoPages "tok" "org1" fuel
              { total_results := 2, next_index := 2, items_per_page := 1 }
              (acc ++ [aliceUser]) (ci + 1) p).params_built } := rfl

/-- From the repeating state, `get_users` against the two-page server never
finishes: within any fuel it reports no result, issues one parameterless
request per iteration, and every request it ever issues carries neither
query parameters nor a body. -/
theorem getUsersGo_twoPages_stuck (fuel : Nat) :
    ∀ acc ci p,
      (getUsersGo cfgS serveTwoPages "tok" "org1" fuel
        { total_results := 2, next_index := 2, items_per_page := 1 }
        acc ci p).result = none
      ∧ (getUsersGo cfgS serveTwoPages "tok" "org1" fuel
          { total_results := 2, next_index := 2, items_per_page := 1 }
          acc ci p).requests.length = fuel
      ∧ ((getUsersGo cfgS serveTwoPages "tok" "org1" fuel
          { total_results := 2, next_index := 2, items_per_page := 1 }
          acc ci p).requests).all
          (fun r => r.kwargs.params.isNone && r.kwargs.json.isNone) = true := by
  induction fuel with
  | zero => intro acc ci p; exact ⟨rfl, rfl, rfl⟩
  | succ fuel IH =>
    intro acc ci p
    obtain ⟨h1, h2, h3⟩ := IH (acc ++ [aliceUser]) (ci + 1) p
    rw [getUsersGo_twoPages_step]
    refine ⟨h1, ?_, ?_⟩
    · simp [h2]
    · simp [h3, reqUsers]

/-- C1: against a startIndex-honouring server holding 2 resources across 2
pages, `get_users` never terminates — the `params` dict with `startIndex`
is built but never passed to `session.get`, so every request goes out
without query parameters (third conjunct), the server serves page 1 over
and over, and the loop yields duplicates forever instead of yielding
exactly the 2 records in page order and stopping. -/
theorem claim_C1 (fuel : Nat) :
    (get_users cfgS serveTwoPages "tok" "org1" fuel).result = none
    ∧ (get_users cfgS serveTwoPages "tok" "org1" fuel).requests.length = fuel
    ∧ ((get_users cfgS serveTwoPages "tok" "org1" fuel).requests).all
        (fun r => r.kwargs.params.isNone && r.kwargs.json.isNone) = true := by
  cases fuel with
  | zero => exact ⟨rfl, rfl, rfl⟩
  | succ fuel =>
    have hstep : get_users cfgS serveTwoPages "tok" "org1" (fuel + 1)
        = { result := (getUsersGo cfgS serveTwoPages "tok" "org1" fuel
              { total_results := 2, next_index := 2, items_per_page := 1 }
              [aliceUser] 1 (scimParams "tok")).result,
            requests := reqUsers :: (getUsersGo cfgS serveTwoPages "tok"
              "org1" fuel
              { total_results := 2, next_index := 2, items_per_page := 1 }
              [aliceUser] 1 (scimParams "tok")).requests,
            sleeps := (getUsersGo cfgS serveTwoPages "tok" "org1" fuel
              { total_results := 2, next_index := 2, items_per_page := 1 }
              [aliceUser] 1 (scimParams "tok")).sleeps,
            params_built := [("startIndex", 1)]
              :: (getUsersGo cfgS serveTwoPages "tok" "org1" fuel
                { total_results := 2, next_index := 2, items_per_page := 1 }
                [aliceUser] 1 (scimParams "tok")).params_built } := rfl
    rw [hstep]
    obtain ⟨h1, h2, h3⟩ :=
      getUsersGo_twoPages_stuck fuel [aliceUser] 1 (scimParams "tok")
    exact ⟨h1, by simp [h2], by simp [h3, reqUsers]⟩

/-- One `get_users` iteration against the server of item-less pages from its
repeating state: the page advances nothing (`startIndex + itemsPerPage = 1`)
and has no items, yet `1 - 1 >= 10` fails, so the loop goes round again in
the very same state. -/
theorem getUsersGo_emptyPages_step (fuel : Nat) (acc : List User) (ci : Nat)
    (p : SessionParams) :
    getUsersGo cfgS serveEmptyPages "tok" "org1" (fuel + 1)
        { total_results := 10, next_index := 1, items_per_page := 0 } acc ci p
      = { result := (getUsersGo cfgS serveEmptyPages "tok" "org1" fuel
            { total_results := 10, next_index := 1, items_per_page := 0 }
            acc (ci + 1) p).result,
          requests := reqUsers :: (getUsersGo cfgS serveEmptyPages "tok"
            "org1" fuel
            { total_results := 10, next_index := 1, items_per_page := 0 }
            acc (ci + 1) p).requests,
          sleeps := (getUsersGo cfgS serveEmptyPages "tok" "org1" fuel
            { total_results := 10, next_index := 1, items_per_page := 0 }
            acc (ci + 1) p).sleeps,
          params_built := [("startIndex", 1)]
            :: (getUsersGo cfgS serveEmptyPages "tok" "org1" fuel
              { total_results := 10, next_index := 1, items_per_page := 0 }
              acc (ci + 1) p).params_built } := rfl

/-- From the repeating state, `get_users` against the item-less-page server
reports no result within any fuel. -/
theorem getUsersGo_emptyPages_stuck (fuel : Nat) :
    ∀ acc ci p, (getUsersGo cfgS serveEmptyPages "tok" "org1" fuel
      { total_results := 10, next_index := 1, items_per_page := 0 }
      acc ci p).result = none := by
  induction fuel with
  | zero => intro acc ci p; rfl
  | succ fuel IH =>
    intro acc ci p
    rw [getUsersGo_emptyPages_step]
    exact IH acc (ci + 1) p

/-- C3 counterexample: against a server whose every page returns no items
(while reporting `totalResults = 10` and a non-advancing cursor),
`get_users` does not stop after the empty page: after 4 loop iterations it
has issued 4 requests and still not terminated. -/
theorem claim_C3_cex :
    (get_users cfgS serveEmptyPages "tok" "org1" 4).result = none
    ∧ (get_users cfgS serveEmptyPages "tok" "org1" 4).requests.length = 4 :=
  ⟨rfl, rfl⟩

/-- C3 (amended): `get_users` stops once `next_index - 1 >= total_results`
(a one-page listing terminates after exactly one request, second and third
conjuncts), but it does NOT stop when a page merely returns no items: with
a server forever serving item-less pages and a non-advancing cursor the
loop never terminates, for any number of iterations (first conjunct). -/
theorem claim_C3 :
    (∀ fuel : Nat,
      (get_users cfgS serveEmptyPages "tok" "org1" fuel).result = none)
    ∧ (get_users cfgS serveOnePage "tok" "org1" 1).result
        = some (.ok [aliceUser])
    ∧ (get_users cfgS serveOnePage "tok" "org1" 1).requests.length = 1 := by
  refine ⟨?_, rfl, rfl⟩
  intro fuel
  cases fuel with
  | zero => rfl
  | succ fuel =>
    have hstep : get_users cfgS serveEmptyPages "tok" "org1" (fuel + 1)
        = { result := (getUsersGo cfgS serveEmptyPages "tok" "org1" fuel
              { total_results := 10, next_index := 1, items_per_page := 0 }
              [] 1 (scimParams "tok")).result,
            requests := reqUsers :: (getUsersGo cfgS serveEmptyPages "tok"
              "org1" fuel
              { total_results := 10, next_index := 1, items_per_page := 0 }
              [] 1 (scimParams "tok")).requests,
            sleeps := (getUsersGo cfgS serveEmptyPages "tok" "org1" fuel
              { total_results := 10, next_index := 1, items_per_page := 0 }
              [] 1 (scimParams "tok")).sleeps,
            params_built := [("startIndex", 1)]
              :: (getUsersGo cfgS serveEmptyPages "tok" "org1" fuel
                { total_results := 10, next_index := 1, items_per_page := 0 }
                [] 1 (scimParams "tok")).params_built } := rfl
    rw [hstep]
    exact getUsersGo_emptyPages_stuck fuel [] 1 (scimParams "tok")

end WebexTools
